import Mathlib

/-!
Shallow embedding of the secure SQLite database module of the
SeniorConnect app (identifier validation, parameterized SQL statement
construction, connection lifecycle, and a modelled embedded store).

Pure string-building and validation code is translated directly from the
source; the stateful parts (the module-level singleton connection and the
effects of issued statements) are modelled as explicit state passing over
a `ModuleState`.
-/

namespace SeniorConnect

/-- SQL-bindable dynamic values. The module binds these exclusively as
positional parameters; they are never interpolated into SQL text. -/
inductive Value where
  | str (s : String)
  | int (n : Int)
  | null
deriving DecidableEq, Repr

/-- Whether an identifier was supplied as a table name or a column name
(the `type` argument of `validateIdentifier`). -/
inductive IdentKind where
  | table
  | column
deriving DecidableEq, Repr

/-- Errors raised by the module: an invalid identifier (carrying the kind,
the offending name, and whether it was rejected as a reserved word), the
not-initialized error from `getDatabase`, and arbitrary user exceptions
(used by transaction callbacks). -/
inductive DbError where
  | invalidIdentifier (kind : IdentKind) (name : String) (reservedWord : Bool)
  | notInitialized
  | userError (msg : String)
deriving DecidableEq, Repr

/-- First character class of the regex `^[A-Za-z_]`. -/
def isIdentStart (c : Char) : Bool := c.isAlpha || c == '_'

/-- Subsequent character class of the regex `[A-Za-z0-9_]*`. -/
def isIdentChar (c : Char) : Bool := c.isAlphanum || c == '_'

/-- The test `VALID_IDENTIFIER.test(name)` for the anchored regex
`^[a-zA-Z_][a-zA-Z0-9_]*$`. -/
def matchesValidIdentifier (s : String) : Bool :=
  match s.data with
  | [] => false
  | c :: cs => isIdentStart c && cs.all isIdentChar

/-- The `RESERVED_WORDS` set of the source module. -/
def RESERVED_WORDS : List String :=
  ["select", "insert", "update", "delete", "drop", "create", "alter",
   "table", "index", "where", "from", "join", "and", "or"]

/-- JavaScript `name.toLowerCase()`: characterwise lowercasing (identical
to Unicode lowercasing on the ASCII strings that can reach the reserved
check, which runs only after the regex test has passed). -/
def jsToLowerCase (s : String) : String := ⟨s.data.map Char.toLower⟩

/-- `validateIdentifier(name, type)`: throws on a regex mismatch, then on a
(case-insensitive) reserved-word hit; otherwise returns normally. -/
def validateIdentifier (name : String) (kind : IdentKind) : Except DbError Unit :=
  if !(matchesValidIdentifier name) then
    .error (.invalidIdentifier kind name false)
  else if RESERVED_WORDS.contains (jsToLowerCase name) then
    .error (.invalidIdentifier kind name true)
  else
    .ok ()

/-- `columns.forEach(col => validateIdentifier(col, 'column'))`: validates
columns left to right, stopping at the first failure. -/
def validateColumns : List String → Except DbError Unit
  | [] => .ok ()
  | c :: cs =>
    match validateIdentifier c IdentKind.column with
    | .ok _ => validateColumns cs
    | .error e => .error e

/-- JavaScript `Array.prototype.join(sep)`. -/
def join (sep : String) : List String → String
  | [] => ""
  | [x] => x
  | x :: y :: xs => x ++ sep ++ join sep (y :: xs)

/-- Double-quote wrapping applied to every validated identifier before it
enters SQL text. -/
def quoteIdent (c : String) : String := "\"" ++ c ++ "\""

/-- A record or condition set: a mapping from column name to value, in
JavaScript object key order (`Object.keys` / `Object.values` order). -/
abbrev Row := List (String × Value)

/-- SQL text and positional parameters of the statement built by `insert`. -/
def insertStmt (table : String) (data : Row) : String × List Value :=
  let columns := data.map Prod.fst
  let values := data.map Prod.snd
  let placeholders := join ", " (columns.map (fun _ => "?"))
  let columnList := join ", " (columns.map quoteIdent)
  ("INSERT INTO \"" ++ table ++ "\" (" ++ columnList ++ ") VALUES (" ++ placeholders ++ ")",
   values)

/-- The `SET` clause `"col1" = ?, "col2" = ?, …` shared by the update
variants. -/
def setClause (columns : List String) : String :=
  join ", " (columns.map (fun col => quoteIdent col ++ " = ?"))

/-- The conjunction `"c1" = ? AND "c2" = ? AND …` shared by the `WhereAnd`
variants. -/
def andClause (columns : List String) : String :=
  join " AND " (columns.map (fun col => quoteIdent col ++ " = ?"))

/-- Statement built by `updateById`. -/
def updateByIdStmt (table : String) (id : Value) (data : Row) : String × List Value :=
  ("UPDATE \"" ++ table ++ "\" SET " ++ setClause (data.map Prod.fst) ++ " WHERE \"id\" = ?",
   data.map Prod.snd ++ [id])

/-- Statement built by `updateWhere`. -/
def updateWhereStmt (table : String) (data : Row) (whereColumn : String)
    (whereValue : Value) : String × List Value :=
  ("UPDATE \"" ++ table ++ "\" SET " ++ setClause (data.map Prod.fst) ++
     " WHERE \"" ++ whereColumn ++ "\" = ?",
   data.map Prod.snd ++ [whereValue])

/-- Statement built by `updateWhereAnd`. -/
def updateWhereAndStmt (table : String) (data : Row) (conditions : Row) :
    String × List Value :=
  ("UPDATE \"" ++ table ++ "\" SET " ++ setClause (data.map Prod.fst) ++
     " WHERE " ++ andClause (conditions.map Prod.fst),
   data.map Prod.snd ++ conditions.map Prod.snd)

/-- Statement built by `deleteById`. -/
def deleteByIdStmt (table : String) (id : Value) : String × List Value :=
  ("DELETE FROM \"" ++ table ++ "\" WHERE \"id\" = ?", [id])

/-- Statement built by `deleteWhere`. -/
def deleteWhereStmt (table : String) (whereColumn : String) (whereValue : Value) :
    String × List Value :=
  ("DELETE FROM \"" ++ table ++ "\" WHERE \"" ++ whereColumn ++ "\" = ?", [whereValue])

/-- Statement built by `deleteWhereAnd`. -/
def deleteWhereAndStmt (table : String) (conditions : Row) : String × List Value :=
  ("DELETE FROM \"" ++ table ++ "\" WHERE " ++ andClause (conditions.map Prod.fst),
   conditions.map Prod.snd)

/-- Statement built by `findById`. -/
def findByIdStmt (table : String) (id : Value) : String × List Value :=
  ("SELECT * FROM \"" ++ table ++ "\" WHERE \"id\" = ? LIMIT 1", [id])

/-- Statement built by `findBy`. -/
def findByStmt (table : String) (column : String) (value : Value) : String × List Value :=
  ("SELECT * FROM \"" ++ table ++ "\" WHERE \"" ++ column ++ "\" = ?", [value])

/-- Statement built by `findOneBy`. -/
def findOneByStmt (table : String) (column : String) (value : Value) : String × List Value :=
  ("SELECT * FROM \"" ++ table ++ "\" WHERE \"" ++ column ++ "\" = ? LIMIT 1", [value])

/-- Statement built by `findWhereAnd`. -/
def findWhereAndStmt (table : String) (conditions : Row) : String × List Value :=
  ("SELECT * FROM \"" ++ table ++ "\" WHERE " ++ andClause (conditions.map Prod.fst),
   conditions.map Prod.snd)

/-- Statement built by `findAll`: `LIMIT ?` is appended only when a limit is
given, and `OFFSET ?` only when, additionally, an offset is given. -/
def findAllStmt (table : String) (limit : Option Int) (offset : Option Int) :
    String × List Value :=
  let base := "SELECT * FROM \"" ++ table ++ "\""
  match limit with
  | none => (base, [])
  | some l =>
    match offset with
    | none => (base ++ " LIMIT ?", [Value.int l])
    | some o => (base ++ " LIMIT ? OFFSET ?", [Value.int l, Value.int o])

/-- Statement built by `count` when no usable condition is supplied. -/
def countAllStmt (table : String) : String × List Value :=
  ("SELECT COUNT(*) as count FROM \"" ++ table ++ "\"", [])

/-- Statement built by `count` when a condition is supplied. -/
def countWhereStmt (table : String) (whereColumn : String) (whereValue : Value) :
    String × List Value :=
  ("SELECT COUNT(*) as count FROM \"" ++ table ++ "\" WHERE \"" ++ whereColumn ++ "\" = ?",
   [whereValue])

/-- Statement built by `countWhereAnd`. -/
def countWhereAndStmt (table : String) (conditions : Row) : String × List Value :=
  ("SELECT COUNT(*) as count FROM \"" ++ table ++ "\" WHERE " ++
     andClause (conditions.map Prod.fst),
   conditions.map Prod.snd)

/-- Statement built by `clearTable`. -/
def clearTableStmt (table : String) : String × List Value :=
  ("DELETE FROM \"" ++ table ++ "\"", [])

/-- Statement built by `tableExists` (the table name is a bound parameter
here, not an identifier position). -/
def tableExistsStmt (table : String) : String × List Value :=
  ("SELECT COUNT(*) as count FROM sqlite_master WHERE type='table' AND name=?",
   [Value.str table])

/-- Modelled from the spec: one table of the underlying embedded relational
store (expo-sqlite / SQLite, external to this repository): rows addressed by
a monotonically increasing generated row identifier. -/
structure TableData where
  nextId : Nat
  rows : List (Nat × Row)
deriving DecidableEq, Repr

/-- A fresh table: row identifiers start at 1. -/
def TableData.empty : TableData := ⟨1, []⟩

/-- Modelled from the spec: the content of the underlying embedded store
(a named-table catalog). -/
structure StoreState where
  tables : List (String × TableData)
deriving DecidableEq, Repr

/-- The empty store. -/
def emptyStore : StoreState := ⟨[]⟩

/-- Look a table up in the catalog (absent tables read as empty). -/
def lookupTable (ts : List (String × TableData)) (t : String) : TableData :=
  ((ts.lookup t).getD TableData.empty)

/-- Replace (or add) a table in the catalog. -/
def setTable : List (String × TableData) → String → TableData → List (String × TableData)
  | [], t, td => [(t, td)]
  | (n, d) :: rest, t, td =>
    if n = t then (t, td) :: rest else (n, d) :: setTable rest t td

/-- Modelled from the spec: SQL equality comparison used by `col = ?`
predicates (NULL compares unequal to everything, as in SQL). -/
def sqlValueEq (a b : Value) : Bool :=
  match a, b with
  | .null, _ => false
  | _, .null => false
  | a, b => a == b

/-- Whether a row satisfies an AND-conjunction of `col = value` conditions
(a missing column reads as NULL). -/
def rowMatches (row : Row) (conds : Row) : Bool :=
  conds.all (fun cv =>
    match row.lookup cv.1 with
    | some v => sqlValueEq v cv.2
    | none => sqlValueEq Value.null cv.2)

/-- Overwrite (or add) one column of a row. -/
def setCol : Row → String → Value → Row
  | [], c, v => [(c, v)]
  | (n, w) :: rest, c, v =>
    if n = c then (c, v) :: rest else (n, w) :: setCol rest c v

/-- Apply a SET clause to a row. -/
def updateRow (row : Row) (set : Row) : Row :=
  set.foldl (fun r cv => setCol r cv.1 cv.2) row

/-- Structured description of a mutating statement issued to the store. -/
inductive Stmt where
  | insertRow (table : String) (row : Row)
  | updateRows (table : String) (set : Row) (conds : Row)
  | deleteRows (table : String) (conds : Row)
  | clearRows (table : String)
deriving DecidableEq, Repr

/-- Result of running a mutating statement (`lastInsertRowId` and `changes`
of expo-sqlite's run result). -/
structure RunResult where
  lastInsertRowId : Nat
  changes : Nat
deriving DecidableEq, Repr

/-- Modelled from the spec: effect of a mutating statement on the store.
An insert appends the row under the table's next generated identifier;
update/delete report the number of matching rows as `changes`. -/
def runStmt (st : StoreState) : Stmt → StoreState × RunResult
  | .insertRow t row =>
    let td := lookupTable st.tables t
    (⟨setTable st.tables t ⟨td.nextId + 1, td.rows ++ [(td.nextId, row)]⟩⟩,
     ⟨td.nextId, 1⟩)
  | .updateRows t set conds =>
    let td := lookupTable st.tables t
    let n := (td.rows.filter (fun r => rowMatches r.2 conds)).length
    let rows := td.rows.map (fun r =>
      if rowMatches r.2 conds then (r.1, updateRow r.2 set) else r)
    (⟨setTable st.tables t ⟨td.nextId, rows⟩⟩, ⟨0, n⟩)
  | .deleteRows t conds =>
    let td := lookupTable st.tables t
    let kept := td.rows.filter (fun r => !(rowMatches r.2 conds))
    (⟨setTable st.tables t ⟨td.nextId, kept⟩⟩, ⟨0, td.rows.length - kept.length⟩)
  | .clearRows t =>
    let td := lookupTable st.tables t
    (⟨setTable st.tables t ⟨td.nextId, []⟩⟩, ⟨0, td.rows.length⟩)

/-- All rows of a table, in insertion order (what `SELECT *` projects). -/
def allRows (st : StoreState) (table : String) : List Row :=
  (lookupTable st.tables table).rows.map Prod.snd

/-- Rows of a table satisfying an AND-conjunction of equality conditions. -/
def selectWhere (st : StoreState) (table : String) (conds : Row) : List Row :=
  (allRows st table).filter (fun r => rowMatches r conds)

/-- Modelled from the spec: SQLite pagination. `LIMIT ? OFFSET ?` drops
`offset` rows then keeps at most `limit` rows (a negative limit means no
limit; a negative offset means zero). -/
def applyPage (rows : List Row) (limit : Option Int) (offset : Option Int) : List Row :=
  match limit with
  | none => rows
  | some l =>
    let dropped := rows.drop ((offset.getD 0).toNat)
    if l < 0 then dropped else dropped.take l.toNat

/-- State of the database module: the `dbInstance` module variable (null or
one open handle, whose content is the modelled store), the persisted on-disk
content behind `openDatabaseAsync`/`closeAsync`, and the ordered trace of
every statement text and parameter list issued to the store. -/
structure ModuleState where
  dbInstance : Option StoreState
  disk : StoreState
  trace : List (String × List Value)
deriving DecidableEq, Repr

/-- Computation of the database module: explicit state passing with
JavaScript exception semantics (a throw stops execution and keeps the state
reached so far). -/
def DbM (α : Type) : Type := ModuleState → Except DbError α × ModuleState

/-- Return a value without touching the state. -/
def DbM.pure (a : α) : DbM α := fun s => (.ok a, s)

/-- Sequence two computations; an error in the first short-circuits. -/
def DbM.bind (x : DbM α) (f : α → DbM β) : DbM β := fun s =>
  match x s with
  | (.ok a, s') => f a s'
  | (.error e, s') => (.error e, s')

instance : Monad DbM where
  pure := DbM.pure
  bind := DbM.bind

/-- Run a pure `Except` step (e.g. a validation) inside `DbM`. -/
def liftE (x : Except DbError α) : DbM α := fun s => (x, s)

/-- Throw an arbitrary exception (used by transaction callbacks). -/
def DbM.throwErr (e : DbError) : DbM α := fun s => (.error e, s)

/-- `initDatabase()`: returns the existing handle if present; otherwise
opens the database (content read from disk) and issues the WAL pragma. -/
def initDatabase : DbM StoreState := fun s =>
  match s.dbInstance with
  | some db => (.ok db, s)
  | none =>
    (.ok s.disk,
     { s with
        dbInstance := some s.disk,
        trace := s.trace ++ [("PRAGMA journal_mode = WAL;", [])] })

/-- `getDatabase()`: throws the not-initialized error when the singleton is
null, else returns the handle. -/
def getDatabase : DbM StoreState := fun s =>
  match s.dbInstance with
  | none => (.error .notInitialized, s)
  | some db => (.ok db, s)

/-- `closeDatabase()`: closes and nulls the handle when one exists
(persisting its content), and is a no-op otherwise. -/
def closeDatabase : DbM Unit := fun s =>
  match s.dbInstance with
  | some db => (.ok (), { s with dbInstance := none, disk := db })
  | none => (.ok (), s)

/-- Modelled from the spec: `db.runAsync(sql, ...params)` — records the
issued statement text and parameters in the trace and applies the
structured effect `stmt` to the store. -/
def runAsync (sql : String) (params : List Value) (stmt : Stmt) : DbM RunResult :=
  fun s =>
    match s.dbInstance with
    | none => (.error .notInitialized, s)
    | some st =>
      let r := runStmt st stmt
      (.ok r.2,
       { s with dbInstance := some r.1, trace := s.trace ++ [(sql, params)] })

/-- Modelled from the spec: a read-only statement (`getAllAsync` /
`getFirstAsync`) — records the issued statement and returns the store
content it reads from. -/
def readAsync (sql : String) (params : List Value) : DbM StoreState := fun s =>
  match s.dbInstance with
  | none => (.error .notInitialized, s)
  | some st => (.ok st, { s with trace := s.trace ++ [(sql, params)] })

/-- `insert(table, data)`. -/
def insert (table : String) (data : Row) : DbM Nat := do
  liftE (validateIdentifier table IdentKind.table)
  let _ ← getDatabase
  liftE (validateColumns (data.map Prod.fst))
  let sp := insertStmt table data
  let r ← runAsync sp.1 sp.2 (Stmt.insertRow table data)
  pure r.lastInsertRowId

/-- `updateById(table, id, data)`. -/
def updateById (table : String) (id : Value) (data : Row) : DbM Nat := do
  liftE (validateIdentifier table IdentKind.table)
  let _ ← getDatabase
  liftE (validateColumns (data.map Prod.fst))
  let sp := updateByIdStmt table id data
  let r ← runAsync sp.1 sp.2 (Stmt.updateRows table data [("id", id)])
  pure r.changes

/-- `updateWhere(table, data, whereColumn, whereValue)`. -/
def updateWhere (table : String) (data : Row) (whereColumn : String)
    (whereValue : Value) : DbM Nat := do
  liftE (validateIdentifier table IdentKind.table)
  liftE (validateIdentifier whereColumn IdentKind.column)
  let _ ← getDatabase
  liftE (validateColumns (data.map Prod.fst))
  let sp := updateWhereStmt table data whereColumn whereValue
  let r ← runAsync sp.1 sp.2 (Stmt.updateRows table data [(whereColumn, whereValue)])
  pure r.changes

/-- `updateWhereAnd(table, data, conditions)`. -/
def updateWhereAnd (table : String) (data : Row) (conditions : Row) : DbM Nat := do
  liftE (validateIdentifier table IdentKind.table)
  let _ ← getDatabase
  liftE (validateColumns (data.map Prod.fst))
  liftE (validateColumns (conditions.map Prod.fst))
  let sp := updateWhereAndStmt table data conditions
  let r ← runAsync sp.1 sp.2 (Stmt.updateRows table data conditions)
  pure r.changes

/-- `deleteById(table, id)`. -/
def deleteById (table : String) (id : Value) : DbM Nat := do
  liftE (validateIdentifier table IdentKind.table)
  let _ ← getDatabase
  let sp := deleteByIdStmt table id
  let r ← runAsync sp.1 sp.2 (Stmt.deleteRows table [("id", id)])
  pure r.changes

/-- `deleteWhere(table, whereColumn, whereValue)`. -/
def deleteWhere (table : String) (whereColumn : String) (whereValue : Value) :
    DbM Nat := do
  liftE (validateIdentifier table IdentKind.table)
  liftE (validateIdentifier whereColumn IdentKind.column)
  let _ ← getDatabase
  let sp := deleteWhereStmt table whereColumn whereValue
  let r ← runAsync sp.1 sp.2 (Stmt.deleteRows table [(whereColumn, whereValue)])
  pure r.changes

/-- `deleteWhereAnd(table, conditions)`. -/
def deleteWhereAnd (table : String) (conditions : Row) : DbM Nat := do
  liftE (validateIdentifier table IdentKind.table)
  let _ ← getDatabase
  liftE (validateColumns (conditions.map Prod.fst))
  let sp := deleteWhereAndStmt table conditions
  let r ← runAsync sp.1 sp.2 (Stmt.deleteRows table conditions)
  pure r.changes

/-- `findById(table, id)`. -/
def findById (table : String) (id : Value) : DbM (Option Row) := do
  liftE (validateIdentifier table IdentKind.table)
  let _ ← getDatabase
  let sp := findByIdStmt table id
  let st ← readAsync sp.1 sp.2
  pure (selectWhere st table [("id", id)]).head?

/-- `findBy(table, column, value)`. -/
def findBy (table : String) (column : String) (value : Value) : DbM (List Row) := do
  liftE (validateIdentifier table IdentKind.table)
  liftE (validateIdentifier column IdentKind.column)
  let _ ← getDatabase
  let sp := findByStmt table column value
  let st ← readAsync sp.1 sp.2
  pure (selectWhere st table [(column, value)])

/-- `findOneBy(table, column, value)`. -/
def findOneBy (table : String) (column : String) (value : Value) :
    DbM (Option Row) := do
  liftE (validateIdentifier table IdentKind.table)
  liftE (validateIdentifier column IdentKind.column)
  let _ ← getDatabase
  let sp := findOneByStmt table column value
  let st ← readAsync sp.1 sp.2
  pure (selectWhere st table [(column, value)]).head?

/-- `findWhereAnd(table, conditions)`. -/
def findWhereAnd (table : String) (conditions : Row) : DbM (List Row) := do
  liftE (validateIdentifier table IdentKind.table)
  let _ ← getDatabase
  liftE (validateColumns (conditions.map Prod.fst))
  let sp := findWhereAndStmt table conditions
  let st ← readAsync sp.1 sp.2
  pure (selectWhere st table conditions)

/-- `findAll(table, limit?, offset?)`. -/
def findAll (table : String) (limit : Option Int) (offset : Option Int) :
    DbM (List Row) := do
  liftE (validateIdentifier table IdentKind.table)
  let _ ← getDatabase
  let sp := findAllStmt table limit offset
  let st ← readAsync sp.1 sp.2
  pure (applyPage (allRows st table) limit offset)

/-- JavaScript truthiness of the optional `whereColumn` string argument
(absent or empty strings are falsy). -/
def jsTruthy : Option String → Bool
  | none => false
  | some s => !(s.data.isEmpty)

/-- `count(table, whereColumn?, whereValue?)`: the condition branch is taken
only when `whereColumn` is truthy AND `whereValue !== undefined`; only then
is `whereColumn` validated. -/
def count (table : String) (whereColumn : Option String) (whereValue : Option Value) :
    DbM Nat := do
  liftE (validateIdentifier table IdentKind.table)
  let _ ← getDatabase
  if jsTruthy whereColumn && whereValue.isSome then
    let c := whereColumn.getD ""
    let v := whereValue.getD Value.null
    liftE (validateIdentifier c IdentKind.column)
    let sp := countWhereStmt table c v
    let st ← readAsync sp.1 sp.2
    pure (selectWhere st table [(c, v)]).length
  else
    let sp := countAllStmt table
    let st ← readAsync sp.1 sp.2
    pure (allRows st table).length

/-- `countWhereAnd(table, conditions)`. -/
def countWhereAnd (table : String) (conditions : Row) : DbM Nat := do
  liftE (validateIdentifier table IdentKind.table)
  let _ ← getDatabase
  liftE (validateColumns (conditions.map Prod.fst))
  let sp := countWhereAndStmt table conditions
  let st ← readAsync sp.1 sp.2
  pure (selectWhere st table conditions).length

/-- `executeQuery(sql, params)`. Modelled from the spec: the unvalidated
escape hatch; the effect of an arbitrary prebuilt SQL string on the external
engine is not interpreted by this model — only the initialization check and
the issued statement are. -/
def executeQuery (sql : String) (params : List Value) : DbM (List Row) := do
  let _ ← getDatabase
  let _ ← readAsync sql params
  pure []

/-- Modelled from the spec: expo-sqlite's `withTransactionAsync` — runs the
callback inside BEGIN/COMMIT; on an exception it rolls the store content
back to its pre-transaction snapshot and rethrows the same exception. -/
def withTransactionAsync (cb : DbM α) : DbM α := fun s =>
  match s.dbInstance with
  | none => (.error .notInitialized, s)
  | some st =>
    match cb s with
    | (.ok a, s') => (.ok a, s')
    | (.error e, s') => (.error e, { s' with dbInstance := some st })

/-- `transaction(callback)`. -/
def transaction (cb : DbM α) : DbM α := do
  let _ ← getDatabase
  withTransactionAsync cb

/-- `clearTable(table)`. -/
def clearTable (table : String) : DbM Unit := do
  liftE (validateIdentifier table IdentKind.table)
  let _ ← getDatabase
  let sp := clearTableStmt table
  let _ ← runAsync sp.1 sp.2 (Stmt.clearRows table)
  pure ()

/-- `tableExists(table)`: probes the store catalog. -/
def tableExists (table : String) : DbM Bool := do
  liftE (validateIdentifier table IdentKind.table)
  let _ ← getDatabase
  let sp := tableExistsStmt table
  let st ← readAsync sp.1 sp.2
  pure (st.tables.lookup table).isSome

/-- Spec-side reading of the identifier pattern `^[A-Za-z_][A-Za-z0-9_]*$`:
a first character that is a letter or underscore followed by letters,
digits or underscores. Stated from the spec's words, to be compared with
the source-side `matchesValidIdentifier`. -/
def specPattern (s : String) : Prop :=
  match s.data with
  | [] => False
  | c :: cs => (c.isAlpha = true ∨ c = '_') ∧
      ∀ x ∈ cs, (x.isAlphanum = true ∨ x = '_')

instance (s : String) : Decidable (specPattern s) :=
  match h : s.data with
  | [] => isFalse (by simp [specPattern, h])
  | c :: cs =>
    decidable_of_iff ((c.isAlpha = true ∨ c = '_') ∧
      ∀ x ∈ cs, (x.isAlphanum = true ∨ x = '_')) (by simp [specPattern, h])

/-- Number of `?` placeholder characters occurring in a piece of SQL text. -/
def qcount (s : String) : Nat := s.data.count '?'

/-- A module state whose singleton handle is open on an empty store. -/
def sInit : ModuleState := ⟨some emptyStore, emptyStore, []⟩

/-- The uninitialized module state (fresh process, nothing opened yet). -/
def sNone : ModuleState := ⟨none, emptyStore, []⟩

/-- A store holding one `users` table with a single row `(id = 1)`. -/
def usersStore : StoreState :=
  ⟨[("users", ⟨2, [(1, [("id", Value.int 1), ("name", Value.str "Alice")])]⟩)]⟩

/-- A module state open on `usersStore`. -/
def sUsers : ModuleState := ⟨some usersStore, emptyStore, []⟩

/-- A transaction callback that performs two inserts and then throws. -/
def twoInsertsThenThrow : DbM Nat := do
  let _ ← insert "users" [("name", Value.str "Bob")]
  let _ ← insert "users" [("name", Value.str "Carol")]
  DbM.throwErr (DbError.userError "boom")

/-- The module state reached by running `twoInsertsThenThrow` from `sInit`
up to its throw: both rows stored, both statements traced. -/
def afterTwoInserts : ModuleState :=
  ⟨some ⟨[("users",
      ⟨3, [(1, [("name", Value.str "Bob")]), (2, [("name", Value.str "Carol")])]⟩)]⟩,
   emptyStore,
   [("INSERT INTO \"users\" (\"name\") VALUES (?)", [Value.str "Bob"]),
    ("INSERT INTO \"users\" (\"name\") VALUES (?)", [Value.str "Carol"])]⟩

deriving instance DecidableEq for Except

/-! Helper lemmas (shared). -/

theorem run_bind (x : DbM α) (f : α → DbM β) (s : ModuleState) :
    (x >>= f) s =
      match x s with
      | (.ok a, s') => f a s'
      | (.error e, s') => (.error e, s') := rfl

theorem run_pure (a : α) (s : ModuleState) : (pure a : DbM α) s = (.ok a, s) := rfl

theorem run_liftE (x : Except DbError α) (s : ModuleState) : liftE x s = (x, s) := rfl

theorem run_getDatabase (s : ModuleState) :
    getDatabase s =
      match s.dbInstance with
      | none => (.error .notInitialized, s)
      | some db => (.ok db, s) := rfl

theorem matchesValidIdentifier_iff (s : String) :
    matchesValidIdentifier s = true ↔ specPattern s := by
  unfold matchesValidIdentifier specPattern
  cases s.data with
  | nil => simp
  | cons c cs =>
    simp [isIdentStart, isIdentChar, List.all_eq_true, Bool.and_eq_true,
      Bool.or_eq_true, beq_iff_eq]

theorem validateIdentifier_ok_iff (name : String) (kind : IdentKind) :
    validateIdentifier name kind = .ok () ↔
      (matchesValidIdentifier name = true ∧ jsToLowerCase name ∉ RESERVED_WORDS) := by
  unfold validateIdentifier
  by_cases h1 : matchesValidIdentifier name = true
  · by_cases h2 : jsToLowerCase name ∈ RESERVED_WORDS
    · simp [h1, h2, List.elem_iff]
    · simp [h1, h2, List.elem_iff]
  · simp [h1]

theorem validateIdentifier_cases (name : String) (kind : IdentKind) :
    validateIdentifier name kind = .ok () ∨
      ∃ r, validateIdentifier name kind = .error (.invalidIdentifier kind name r) := by
  unfold validateIdentifier
  by_cases h1 : matchesValidIdentifier name = true
  · by_cases h2 : jsToLowerCase name ∈ RESERVED_WORDS
    · refine .inr ⟨true, ?_⟩
      simp [h1, List.elem_iff]
      exact h2
    · exact .inl (by simp [h1, h2, List.elem_iff])
  · exact .inr ⟨false, by simp [h1]⟩

/-! Placeholder counting. -/

theorem qcount_append (a b : String) : qcount (a ++ b) = qcount a + qcount b := by
  cases a with
  | mk da =>
    cases b with
    | mk db =>
      show (da ++ db).count '?' = da.count '?' + db.count '?'
      exact List.count_append '?' da db

theorem qcount_of_valid_ident {t : String} (h : matchesValidIdentifier t = true) :
    qcount t = 0 := by
  unfold matchesValidIdentifier at h
  unfold qcount
  cases hd : t.data with
  | nil => simp [hd]
  | cons c cs =>
    rw [hd] at h
    simp only [Bool.and_eq_true] at h
    rw [List.count_cons]
    have hc : c ≠ '?' := by
      intro hcq
      rw [hcq] at h
      exact absurd h.1 (by decide)
    have hcs : cs.count '?' = 0 := by
      rw [List.count_eq_zero]
      intro hq
      have := List.all_eq_true.mp h.2 '?' hq
      exact absurd this (by decide)
    simp [hcs, hc, Ne.symm hc]

theorem qcount_placeholders (cols : List String) :
    qcount (join ", " (cols.map (fun _ => "?"))) = cols.length := by
  induction cols with
  | nil => rfl
  | cons c cs ih =>
    cases cs with
    | nil => rfl
    | cons d ds =>
      show qcount ("?" ++ ", " ++ join ", " ((d :: ds).map (fun _ => "?"))) = _
      rw [qcount_append, qcount_append, ih]
      have h1 : qcount "?" = 1 := by decide
      have h2 : qcount ", " = 0 := by decide
      rw [h1, h2]
      simp only [List.length_cons]
      omega

theorem qcount_columnList {cols : List String}
    (h : ∀ c ∈ cols, matchesValidIdentifier c = true) :
    qcount (join ", " (cols.map quoteIdent)) = 0 := by
  induction cols with
  | nil => rfl
  | cons c cs ih =>
    have hc : qcount (quoteIdent c) = 0 := by
      unfold quoteIdent
      rw [qcount_append, qcount_append, qcount_of_valid_ident (h c (by simp))]
      decide
    cases cs with
    | nil => simpa [join] using hc
    | cons d ds =>
      show qcount (quoteIdent c ++ ", " ++ join ", " ((d :: ds).map quoteIdent)) = 0
      rw [qcount_append, qcount_append, hc,
        ih (fun x hx => h x (List.mem_cons_of_mem _ hx))]
      decide

theorem validateColumns_ok_iff (cols : List String) :
    validateColumns cols = .ok () ↔
      ∀ c ∈ cols, validateIdentifier c IdentKind.column = .ok () := by
  induction cols with
  | nil => simp [validateColumns]
  | cons c cs ih =>
    unfold validateColumns
    cases h : validateIdentifier c IdentKind.column with
    | ok u =>
      cases u
      simp [h, ih]
    | error e => simp [h]

/-- C1: `validateIdentifier(name, kind)` succeeds if and only if `name`
matches `^[A-Za-z_][A-Za-z0-9_]*$` and the lowercase form of `name` is not
in the reserved-word set; every other string fails with an
invalid-identifier error carrying the offending name and kind. Since the
reserved check is against the lowercase form, rejection is
case-insensitive (e.g. both "drop" and "DROP" fail; see the witness). -/
theorem validateIdentifier_spec (name : String) (kind : IdentKind) :
    (validateIdentifier name kind = .ok () ↔
      (specPattern name ∧ jsToLowerCase name ∉ RESERVED_WORDS)) ∧
    (¬ (specPattern name ∧ jsToLowerCase name ∉ RESERVED_WORDS) →
      ∃ r, validateIdentifier name kind = .error (.invalidIdentifier kind name r)) := by
  have hiff : validateIdentifier name kind = .ok () ↔
      (specPattern name ∧ jsToLowerCase name ∉ RESERVED_WORDS) := by
    rw [validateIdentifier_ok_iff, matchesValidIdentifier_iff]
  refine ⟨hiff, fun hn => ?_⟩
  rcases validateIdentifier_cases name kind with h | h
  · exact absurd (hiff.mp h) hn
  · exact h

/-- Witness for C1: the reserved word check is case-insensitive, so the
upper-case "DROP" is rejected as a table name. -/
theorem validateIdentifier_spec_witness :
    ∃ r, validateIdentifier "DROP" IdentKind.table =
      .error (.invalidIdentifier IdentKind.table "DROP" r) :=
  (validateIdentifier_spec "DROP" IdentKind.table).2 (by decide)

/-- C3: whenever an operation's identifier validation fails — the table
name, or any column/condition name the operation validates — the operation
returns the invalid-identifier error with the module state (store content
and issued-statement trace) completely unchanged: the error is raised
before any SQL string is assembled and before any statement reaches the
store, and the error pinpoints the offending name and whether it was a
table or a column (last conjunct). -/
theorem invalid_identifier_blocks_execution
    (s : ModuleState) (st : StoreState) (table wc : String)
    (data conds : Row) (id wv v : Value) (l o : Option Int) (e : DbError) :
    (validateIdentifier table IdentKind.table = .error e →
      insert table data s = (.error e, s) ∧
      updateById table id data s = (.error e, s) ∧
      updateWhere table data wc wv s = (.error e, s) ∧
      updateWhereAnd table data conds s = (.error e, s) ∧
      deleteById table id s = (.error e, s) ∧
      deleteWhere table wc wv s = (.error e, s) ∧
      deleteWhereAnd table conds s = (.error e, s) ∧
      findById table id s = (.error e, s) ∧
      findBy table wc v s = (.error e, s) ∧
      findOneBy table wc v s = (.error e, s) ∧
      findWhereAnd table conds s = (.error e, s) ∧
      findAll table l o s = (.error e, s) ∧
      count table (some wc) (some v) s = (.error e, s) ∧
      countWhereAnd table conds s = (.error e, s) ∧
      clearTable table s = (.error e, s) ∧
      tableExists table s = (.error e, s)) ∧
    (validateIdentifier table IdentKind.table = .ok () →
     validateIdentifier wc IdentKind.column = .error e →
      updateWhere table data wc wv s = (.error e, s) ∧
      deleteWhere table wc wv s = (.error e, s) ∧
      findBy table wc v s = (.error e, s) ∧
      findOneBy table wc v s = (.error e, s)) ∧
    (s.dbInstance = some st →
     validateIdentifier table IdentKind.table = .ok () →
     validateColumns (data.map Prod.fst) = .error e →
      insert table data s = (.error e, s) ∧
      updateById table id data s = (.error e, s) ∧
      updateWhereAnd table data conds s = (.error e, s)) ∧
    (s.dbInstance = some st →
     validateIdentifier table IdentKind.table = .ok () →
     validateIdentifier wc IdentKind.column = .ok () →
     validateColumns (data.map Prod.fst) = .error e →
      updateWhere table data wc wv s = (.error e, s)) ∧
    (s.dbInstance = some st →
     validateIdentifier table IdentKind.table = .ok () →
     validateColumns (data.map Prod.fst) = .ok () →
     validateColumns (conds.map Prod.fst) = .error e →
      updateWhereAnd table data conds s = (.error e, s)) ∧
    (s.dbInstance = some st →
     validateIdentifier table IdentKind.table = .ok () →
     validateColumns (conds.map Prod.fst) = .error e →
      deleteWhereAnd table conds s = (.error e, s) ∧
      findWhereAnd table conds s = (.error e, s) ∧
      countWhereAnd table conds s = (.error e, s)) ∧
    (s.dbInstance = some st →
     validateIdentifier table IdentKind.table = .ok () →
     jsTruthy (some wc) = true →
     validateIdentifier wc IdentKind.column = .error e →
      count table (some wc) (some v) s = (.error e, s)) ∧
    (∀ (n : String) (k : IdentKind) (e' : DbError),
      validateIdentifier n k = .error e' →
      ∃ r, e' = DbError.invalidIdentifier k n r) := by
  refine ⟨fun h => ?_, fun htab hwc => ?_, fun hs htab hcols => ?_,
    fun hs htab hwc hcols => ?_, fun hs htab hcols hconds => ?_,
    fun hs htab hconds => ?_, fun hs htab htr hwc => ?_, ?_⟩
  · refine ⟨?_, ?_, ?_, ?_, ?_, ?_, ?_, ?_, ?_, ?_, ?_, ?_, ?_, ?_, ?_, ?_⟩ <;>
      simp [insert, updateById, updateWhere, updateWhereAnd, deleteById,
        deleteWhere, deleteWhereAnd, findById, findBy, findOneBy, findWhereAnd,
        findAll, count, countWhereAnd, clearTable, tableExists,
        run_bind, run_liftE, h]
  · refine ⟨?_, ?_, ?_, ?_⟩ <;>
      simp [updateWhere, deleteWhere, findBy, findOneBy,
        run_bind, run_liftE, htab, hwc]
  · refine ⟨?_, ?_, ?_⟩ <;>
      simp [insert, updateById, updateWhereAnd,
        run_bind, run_liftE, run_getDatabase, hs, htab, hcols]
  · simp [updateWhere, run_bind, run_liftE, run_getDatabase, hs, htab, hwc, hcols]
  · simp [updateWhereAnd, run_bind, run_liftE, run_getDatabase, hs, htab,
      hcols, hconds]
  · refine ⟨?_, ?_, ?_⟩ <;>
      simp [deleteWhereAnd, findWhereAnd, countWhereAnd,
        run_bind, run_liftE, run_getDatabase, hs, htab, hconds]
  · simp [count, run_bind, run_liftE, run_getDatabase, hs, htab, htr, hwc]
  · intro n k e' h
    rcases validateIdentifier_cases n k with hok | ⟨r, hr⟩
    · rw [hok] at h
      exact absurd h (by simp)
    · rw [hr] at h
      exact ⟨r, (Except.error.inj h).symm⟩

/-- Witness for C3: `insert("1bad", …)` and `insert("select", …)` both fail
with the invalid-identifier error and leave the initialized module state
(and hence the store) untouched. -/
theorem invalid_identifier_blocks_execution_witness :
    insert "1bad" [("name", Value.str "x")] sInit =
      (.error (.invalidIdentifier IdentKind.table "1bad" false), sInit) ∧
    insert "select" [("name", Value.str "x")] sInit =
      (.error (.invalidIdentifier IdentKind.table "select" true), sInit) :=
  ⟨((invalid_identifier_blocks_execution sInit emptyStore "1bad" "c"
      [("name", Value.str "x")] [] Value.null Value.null Value.null none none
      (.invalidIdentifier IdentKind.table "1bad" false)).1 (by decide)).1,
   ((invalid_identifier_blocks_execution sInit emptyStore "select" "c"
      [("name", Value.str "x")] [] Value.null Value.null Value.null none none
      (.invalidIdentifier IdentKind.table "select" true)).1 (by decide)).1⟩

/-- C2: for every value-taking operation, the SQL text is a function of the
table name and the column/condition keys only — two calls with the same
table and keys but different values yield character-for-character identical
SQL — and the values travel exclusively as the positional parameter list
(update values in SET-order followed by WHERE-order). Moreover a successful
`insert` issues exactly one statement (one trace entry, whose text depends
only on the keys) and appends the supplied record verbatim to the store, so
a value holding SQL metacharacters is stored exactly as given and executes
nothing. -/
theorem sql_independent_of_values
    (table wc : String) (d1 d2 c1 c2 : Row) (id1 id2 wv1 wv2 v1 v2 : Value)
    (hd : d1.map Prod.fst = d2.map Prod.fst)
    (hc : c1.map Prod.fst = c2.map Prod.fst) :
    ((insertStmt table d1).1 = (insertStmt table d2).1 ∧
      (insertStmt table d1).2 = d1.map Prod.snd) ∧
    ((updateByIdStmt table id1 d1).1 = (updateByIdStmt table id2 d2).1 ∧
      (updateByIdStmt table id1 d1).2 = d1.map Prod.snd ++ [id1]) ∧
    ((updateWhereStmt table d1 wc wv1).1 = (updateWhereStmt table d2 wc wv2).1 ∧
      (updateWhereStmt table d1 wc wv1).2 = d1.map Prod.snd ++ [wv1]) ∧
    ((updateWhereAndStmt table d1 c1).1 = (updateWhereAndStmt table d2 c2).1 ∧
      (updateWhereAndStmt table d1 c1).2 = d1.map Prod.snd ++ c1.map Prod.snd) ∧
    ((deleteWhereStmt table wc wv1).1 = (deleteWhereStmt table wc wv2).1 ∧
      (deleteWhereStmt table wc wv1).2 = [wv1]) ∧
    ((deleteWhereAndStmt table c1).1 = (deleteWhereAndStmt table c2).1 ∧
      (deleteWhereAndStmt table c1).2 = c1.map Prod.snd) ∧
    ((findByStmt table wc v1).1 = (findByStmt table wc v2).1 ∧
      (findByStmt table wc v1).2 = [v1]) ∧
    ((findOneByStmt table wc v1).1 = (findOneByStmt table wc v2).1 ∧
      (findOneByStmt table wc v1).2 = [v1]) ∧
    ((findWhereAndStmt table c1).1 = (findWhereAndStmt table c2).1 ∧
      (findWhereAndStmt table c1).2 = c1.map Prod.snd) ∧
    ((countWhereStmt table wc v1).1 = (countWhereStmt table wc v2).1 ∧
      (countWhereStmt table wc v1).2 = [v1]) ∧
    ((countWhereAndStmt table c1).1 = (countWhereAndStmt table c2).1 ∧
      (countWhereAndStmt table c1).2 = c1.map Prod.snd) ∧
    (∀ (s : ModuleState) (st : StoreState),
      s.dbInstance = some st →
      validateIdentifier table IdentKind.table = .ok () →
      validateColumns (d1.map Prod.fst) = .ok () →
      insert table d1 s =
        (.ok (lookupTable st.tables table).nextId,
         { s with
            dbInstance := some ⟨setTable st.tables table
              ⟨(lookupTable st.tables table).nextId + 1,
               (lookupTable st.tables table).rows ++
                 [((lookupTable st.tables table).nextId, d1)]⟩⟩,
            trace := s.trace ++ [((insertStmt table d1).1, d1.map Prod.snd)] })) := by
  refine ⟨⟨?_, rfl⟩, ⟨?_, rfl⟩, ⟨?_, rfl⟩, ⟨?_, rfl⟩, ⟨rfl, rfl⟩, ⟨?_, rfl⟩,
    ⟨rfl, rfl⟩, ⟨rfl, rfl⟩, ⟨?_, rfl⟩, ⟨rfl, rfl⟩, ⟨?_, rfl⟩, ?_⟩
  · simp [insertStmt, hd]
  · simp [updateByIdStmt, hd]
  · simp [updateWhereStmt, hd]
  · simp [updateWhereAndStmt, hd, hc]
  · simp [deleteWhereAndStmt, hc]
  · simp [findWhereAndStmt, hc]
  · simp [countWhereAndStmt, hc]
  · intro s st hs htab hcols
    simp [insert, run_bind, run_liftE, run_getDatabase, run_pure, runAsync,
      runStmt, hs, htab, hcols]
    rfl

/-- Witness for C2: inserting a benign value and an injection payload into
the same column produce the identical SQL text. -/
theorem sql_independent_of_values_witness :
    (insertStmt "users" [("name", Value.str "Alice")]).1 =
      (insertStmt "users" [("name", Value.str "x27; DROP TABLE x; --")]).1 :=
  ((sql_independent_of_values "users" "c"
      [("name", Value.str "Alice")] [("name", Value.str "x27; DROP TABLE x; --")]
      [] [] Value.null Value.null Value.null Value.null Value.null Value.null
      (by decide) rfl).1).1

/-- C4: for a valid table and record, `insert` builds exactly
`INSERT INTO "<table>" ("col1", …) VALUES (?, …)` — every identifier
double-quoted, the number of `?` placeholder characters in the SQL text
equal to the number of columns — binds the record's values positionally in
record key order, and returns the store's newly generated row identifier
(appending exactly that row under it). -/
theorem insert_builds_parameterized_statement
    (table : String) (data : Row) (s : ModuleState) (st : StoreState)
    (hs : s.dbInstance = some st)
    (htab : validateIdentifier table IdentKind.table = .ok ())
    (hcols : validateColumns (data.map Prod.fst) = .ok ()) :
    (insertStmt table data).1 =
      "INSERT INTO \"" ++ table ++ "\" (" ++
        join ", " ((data.map Prod.fst).map quoteIdent) ++ ") VALUES (" ++
        join ", " ((data.map Prod.fst).map (fun _ => "?")) ++ ")" ∧
    qcount (insertStmt table data).1 = data.length ∧
    (insertStmt table data).2 = data.map Prod.snd ∧
    insert table data s =
      (.ok (lookupTable st.tables table).nextId,
       { s with
          dbInstance := some ⟨setTable st.tables table
            ⟨(lookupTable st.tables table).nextId + 1,
             (lookupTable st.tables table).rows ++
               [((lookupTable st.tables table).nextId, data)]⟩⟩,
          trace := s.trace ++ [((insertStmt table data).1, data.map Prod.snd)] }) := by
  have hmt : matchesValidIdentifier table = true :=
    ((validateIdentifier_ok_iff table IdentKind.table).mp htab).1
  have hmc : ∀ c ∈ data.map Prod.fst, matchesValidIdentifier c = true := fun c hcm =>
    ((validateIdentifier_ok_iff c IdentKind.column).mp
      (((validateColumns_ok_iff _).mp hcols) c hcm)).1
  refine ⟨rfl, ?_, rfl, ?_⟩
  · rw [show (insertStmt table data).1 =
        "INSERT INTO \"" ++ table ++ "\" (" ++
          join ", " ((data.map Prod.fst).map quoteIdent) ++ ") VALUES (" ++
          join ", " ((data.map Prod.fst).map (fun _ => "?")) ++ ")" from rfl]
    rw [qcount_append, qcount_append, qcount_append, qcount_append,
      qcount_append, qcount_append]
    rw [qcount_of_valid_ident hmt, qcount_columnList hmc, qcount_placeholders]
    have h1 : qcount "INSERT INTO \"" = 0 := by decide
    have h2 : qcount "\" (" = 0 := by decide
    have h3 : qcount ") VALUES (" = 0 := by decide
    have h4 : qcount ")" = 0 := by decide
    rw [h1, h2, h3, h4]
    simp [List.length_map]
  · simp [insert, run_bind, run_liftE, run_getDatabase, run_pure, runAsync,
      runStmt, hs, htab, hcols]
    rfl

/-- Witness for C4 (Scenario A): inserting `{name: "Alice", age: 30}` into
`users` on a fresh store builds the two-placeholder statement, binds the
values in key order, stores the row under the generated id 1 and returns
that id. -/
theorem insert_builds_parameterized_statement_witness :
    insert "users" [("name", Value.str "Alice"), ("age", Value.int 30)] sInit =
      (.ok 1,
       ⟨some ⟨[("users", ⟨2, [(1, [("name", Value.str "Alice"), ("age", Value.int 30)])]⟩)]⟩,
        emptyStore,
        [("INSERT INTO \"users\" (\"name\", \"age\") VALUES (?, ?)",
          [Value.str "Alice", Value.int 30])]⟩) :=
  ((insert_builds_parameterized_statement "users"
      [("name", Value.str "Alice"), ("age", Value.int 30)] sInit emptyStore rfl
      (by decide) (by decide)).2.2.2).trans (by rfl)

theorem length_sub_filter_not {α : Type} (l : List α) (p : α → Bool) :
    l.length - (l.filter (fun x => !(p x))).length = (l.filter p).length := by
  induction l with
  | nil => rfl
  | cons x xs ih =>
    have hle : (xs.filter (fun y => !(p y))).length ≤ xs.length :=
      List.length_filter_le _ _
    cases h : p x <;> simp [List.filter_cons, h] <;> omega

/-- C5: the update variants build
`UPDATE "<table>" SET "c1" = ?, … WHERE <predicate>` — a single equality
against `"id"` (`updateById`) or the given column (`updateWhere`), or an
AND-conjunction (`updateWhereAnd`) — binding all values in SET-order
followed by WHERE-order; they and the symmetric delete variants return the
count of matching rows wrapped in a success (so 0 for a non-matching id or
condition is an ordinary result, not an error). -/
theorem update_delete_counts
    (table wc : String) (data conds : Row) (id wv : Value)
    (s : ModuleState) (st : StoreState)
    (hs : s.dbInstance = some st)
    (htab : validateIdentifier table IdentKind.table = .ok ())
    (hwc : validateIdentifier wc IdentKind.column = .ok ())
    (hcols : validateColumns (data.map Prod.fst) = .ok ())
    (hconds : validateColumns (conds.map Prod.fst) = .ok ()) :
    ((updateById table id data s).1 =
      .ok ((lookupTable st.tables table).rows.filter
        (fun r => rowMatches r.2 [("id", id)])).length ∧
     (updateById table id data s).2.trace = s.trace ++
       [("UPDATE \"" ++ table ++ "\" SET " ++ setClause (data.map Prod.fst) ++
           " WHERE \"id\" = ?",
         data.map Prod.snd ++ [id])]) ∧
    ((updateWhere table data wc wv s).1 =
      .ok ((lookupTable st.tables table).rows.filter
        (fun r => rowMatches r.2 [(wc, wv)])).length ∧
     (updateWhere table data wc wv s).2.trace = s.trace ++
       [("UPDATE \"" ++ table ++ "\" SET " ++ setClause (data.map Prod.fst) ++
           " WHERE \"" ++ wc ++ "\" = ?",
         data.map Prod.snd ++ [wv])]) ∧
    ((updateWhereAnd table data conds s).1 =
      .ok ((lookupTable st.tables table).rows.filter
        (fun r => rowMatches r.2 conds)).length ∧
     (updateWhereAnd table data conds s).2.trace = s.trace ++
       [("UPDATE \"" ++ table ++ "\" SET " ++ setClause (data.map Prod.fst) ++
           " WHERE " ++ andClause (conds.map Prod.fst),
         data.map Prod.snd ++ conds.map Prod.snd)]) ∧
    ((deleteById table id s).1 =
      .ok ((lookupTable st.tables table).rows.filter
        (fun r => rowMatches r.2 [("id", id)])).length ∧
     (deleteById table id s).2.trace = s.trace ++
       [("DELETE FROM \"" ++ table ++ "\" WHERE \"id\" = ?", [id])]) ∧
    ((deleteWhere table wc wv s).1 =
      .ok ((lookupTable st.tables table).rows.filter
        (fun r => rowMatches r.2 [(wc, wv)])).length ∧
     (deleteWhere table wc wv s).2.trace = s.trace ++
       [("DELETE FROM \"" ++ table ++ "\" WHERE \"" ++ wc ++ "\" = ?", [wv])]) ∧
    ((deleteWhereAnd table conds s).1 =
      .ok ((lookupTable st.tables table).rows.filter
        (fun r => rowMatches r.2 conds)).length ∧
     (deleteWhereAnd table conds s).2.trace = s.trace ++
       [("DELETE FROM \"" ++ table ++ "\" WHERE " ++ andClause (conds.map Prod.fst),
         conds.map Prod.snd)]) := by
  refine ⟨⟨?_, ?_⟩, ⟨?_, ?_⟩, ⟨?_, ?_⟩, ⟨?_, ?_⟩, ⟨?_, ?_⟩, ⟨?_, ?_⟩⟩ <;>
    simp [updateById, updateWhere, updateWhereAnd, deleteById, deleteWhere,
      deleteWhereAnd, updateByIdStmt, updateWhereStmt, updateWhereAndStmt,
      deleteByIdStmt, deleteWhereStmt, deleteWhereAndStmt,
      run_bind, run_liftE, run_getDatabase, run_pure, runAsync, runStmt,
      hs, htab, hwc, hcols, hconds, length_sub_filter_not]

/-- Witness for C5 (P5): on a store whose `users` table holds only the row
with id 1, `updateById` and `deleteById` against the missing id 99 both
return 0 without raising. -/
theorem update_delete_counts_witness :
    (updateById "users" (Value.int 99) [("name", Value.str "Bo")] sUsers).1 =
      .ok 0 ∧
    (deleteById "users" (Value.int 99) sUsers).1 = .ok 0 :=
  ⟨((update_delete_counts "users" "name" [("name", Value.str "Bo")] []
      (Value.int 99) Value.null sUsers usersStore rfl (by decide) (by decide)
      (by decide) (by decide)).1.1).trans (by rfl),
   ((update_delete_counts "users" "name" [("name", Value.str "Bo")] []
      (Value.int 99) Value.null sUsers usersStore rfl (by decide) (by decide)
      (by decide) (by decide)).2.2.2.1.1).trans (by rfl)⟩

/-- C6: `findAll` appends `LIMIT ?` (and then `OFFSET ?` when an offset is
given) only when a limit is given; with no limit the statement is exactly
`SELECT * FROM "<table>"` whatever the offset, so an offset without a limit
is ignored and the call returns all rows unpaginated. -/
theorem findAll_pagination_policy
    (table : String) (l o : Int) (s : ModuleState) (st : StoreState)
    (hs : s.dbInstance = some st)
    (htab : validateIdentifier table IdentKind.table = .ok ()) :
    findAllStmt table none none = ("SELECT * FROM \"" ++ table ++ "\"", []) ∧
    findAllStmt table none (some o) = ("SELECT * FROM \"" ++ table ++ "\"", []) ∧
    findAllStmt table (some l) none =
      ("SELECT * FROM \"" ++ table ++ "\"" ++ " LIMIT ?", [Value.int l]) ∧
    findAllStmt table (some l) (some o) =
      ("SELECT * FROM \"" ++ table ++ "\"" ++ " LIMIT ? OFFSET ?",
       [Value.int l, Value.int o]) ∧
    findAll table none (some o) s =
      (.ok (allRows st table),
       { s with trace := s.trace ++ [("SELECT * FROM \"" ++ table ++ "\"", [])] }) := by
  refine ⟨rfl, rfl, rfl, rfl, ?_⟩
  simp [findAll, findAllStmt, applyPage, run_bind, run_liftE, run_getDatabase,
    run_pure, readAsync, hs, htab]

/-- Witness for C6 (Scenario C): `findAll("users", undefined, 5)` returns
every row of `users` and issues a statement with no pagination clause. -/
theorem findAll_pagination_policy_witness :
    findAll "users" none (some 5) sUsers =
      (.ok [[("id", Value.int 1), ("name", Value.str "Alice")]],
       ⟨some usersStore, emptyStore, [("SELECT * FROM \"users\"", [])]⟩) :=
  ((findAll_pagination_policy "users" 0 5 sUsers usersStore rfl
      (by decide)).2.2.2.2).trans (by rfl)

/-- C7: `transaction(callback)` is atomic: when the callback completes, its
result and every effect it performed are kept; when the callback throws,
the store content is rolled back to its pre-transaction snapshot (no effect
performed inside is visible afterwards) and the very same exception
propagates to the caller. -/
theorem transaction_atomic {α : Type} (cb : DbM α) (s : ModuleState)
    (st : StoreState) (hs : s.dbInstance = some st) :
    (∀ (a : α) (s' : ModuleState), cb s = (.ok a, s') →
      transaction cb s = (.ok a, s')) ∧
    (∀ (e : DbError) (s' : ModuleState), cb s = (.error e, s') →
      transaction cb s = (.error e, { s' with dbInstance := some st })) := by
  refine ⟨fun a s' h => ?_, fun e s' h => ?_⟩ <;>
    simp [transaction, withTransactionAsync, run_bind, run_getDatabase, hs, h]

/-- Witness for C7 (P6): a transaction performing two inserts and then
throwing leaves neither inserted row visible — the store is back to the
empty pre-transaction snapshot — and the callback's own exception is what
the caller receives. -/
theorem transaction_atomic_witness :
    transaction twoInsertsThenThrow sInit =
      (.error (.userError "boom"),
       { afterTwoInserts with dbInstance := some emptyStore }) :=
  (transaction_atomic twoInsertsThenThrow sInit emptyStore rfl).2
    (DbError.userError "boom") afterTwoInserts (by rfl)

/-- C9: when `whereValue` is undefined (or `whereColumn` is absent), `count`
never validates `whereColumn`, builds the statement without a WHERE clause,
and returns the count of all rows — in particular an invalid or
reserved-word `whereColumn` paired with an undefined `whereValue` raises no
invalid-identifier error. -/
theorem count_skips_where_validation
    (table : String) (wc : Option String) (wv : Option Value)
    (s : ModuleState) (st : StoreState)
    (hs : s.dbInstance = some st)
    (htab : validateIdentifier table IdentKind.table = .ok ()) :
    count table wc none s =
      (.ok (allRows st table).length,
       { s with trace := s.trace ++
          [("SELECT COUNT(*) as count FROM \"" ++ table ++ "\"", [])] }) ∧
    count table none wv s =
      (.ok (allRows st table).length,
       { s with trace := s.trace ++
          [("SELECT COUNT(*) as count FROM \"" ++ table ++ "\"", [])] }) := by
  constructor <;>
    simp [count, countAllStmt, jsTruthy, run_bind, run_liftE, run_getDatabase,
      run_pure, readAsync, hs, htab]

/-- Witness for C9: `count("users", "drop", undefined)` succeeds with the
total row count even though "drop" is a reserved word, because the column
is never validated. -/
theorem count_skips_where_validation_witness :
    count "users" (some "drop") none sUsers =
      (.ok 1,
       ⟨some usersStore, emptyStore,
        [("SELECT COUNT(*) as count FROM \"users\"", [])]⟩) :=
  ((count_skips_where_validation "users" (some "drop") none sUsers usersStore
      rfl (by decide)).1).trans (by rfl)

/-- C8 (amended): before `initDatabase` has created the shared handle (or
after `closeDatabase` has torn it down), every operation fails and issues
no statement — with the not-initialized error whenever the identifiers it
validates before touching the handle pass validation (operations that
validate names first report the invalid identifier instead, see the
counterexample); `initDatabase` creates the connection lazily when the
handle is null and returns the existing handle, with no further effect, on
subsequent calls. -/
theorem operations_require_initialization
    {α : Type} (cb : DbM α)
    (table wc sqlText : String) (data conds : Row) (id wv v : Value)
    (l o : Option Int) (params : List Value)
    (s : ModuleState) (hs : s.dbInstance = none)
    (htab : validateIdentifier table IdentKind.table = .ok ())
    (hwc : validateIdentifier wc IdentKind.column = .ok ()) :
    insert table data s = (.error .notInitialized, s) ∧
    updateById table id data s = (.error .notInitialized, s) ∧
    updateWhere table data wc wv s = (.error .notInitialized, s) ∧
    updateWhereAnd table data conds s = (.error .notInitialized, s) ∧
    deleteById table id s = (.error .notInitialized, s) ∧
    deleteWhere table wc wv s = (.error .notInitialized, s) ∧
    deleteWhereAnd table conds s = (.error .notInitialized, s) ∧
    findById table id s = (.error .notInitialized, s) ∧
    findBy table wc v s = (.error .notInitialized, s) ∧
    findOneBy table wc v s = (.error .notInitialized, s) ∧
    findWhereAnd table conds s = (.error .notInitialized, s) ∧
    findAll table l o s = (.error .notInitialized, s) ∧
    count table (some wc) (some v) s = (.error .notInitialized, s) ∧
    countWhereAnd table conds s = (.error .notInitialized, s) ∧
    executeQuery sqlText params s = (.error .notInitialized, s) ∧
    transaction cb s = (.error .notInitialized, s) ∧
    clearTable table s = (.error .notInitialized, s) ∧
    tableExists table s = (.error .notInitialized, s) ∧
    initDatabase s =
      (.ok s.disk,
       { s with dbInstance := some s.disk,
                trace := s.trace ++ [("PRAGMA journal_mode = WAL;", [])] }) ∧
    (∀ (s2 : ModuleState) (db : StoreState), s2.dbInstance = some db →
      initDatabase s2 = (.ok db, s2)) := by
  refine ⟨?_, ?_, ?_, ?_, ?_, ?_, ?_, ?_, ?_, ?_, ?_, ?_, ?_, ?_, ?_, ?_, ?_,
    ?_, ?_, fun s2 db h => by simp [initDatabase, h]⟩ <;>
    simp [insert, updateById, updateWhere, updateWhereAnd, deleteById,
      deleteWhere, deleteWhereAnd, findById, findBy, findOneBy, findWhereAnd,
      findAll, count, countWhereAnd, executeQuery, transaction, clearTable,
      tableExists, initDatabase, readAsync,
      run_bind, run_liftE, run_getDatabase, hs, htab, hwc]

/-- Witness for C8 (amended): with valid identifiers, `insert` on the
uninitialized state fails with the not-initialized error and changes
nothing. -/
theorem operations_require_initialization_witness :
    insert "users" [("name", Value.str "x")] sNone =
      (.error .notInitialized, sNone) :=
  (operations_require_initialization (pure 0 : DbM Nat) "users" "name" ""
      [("name", Value.str "x")] [] Value.null Value.null Value.null none none
      [] sNone rfl (by decide) (by decide)).1

/-- Counterexample for C8 as stated: `insert("select", …)` invoked before
initialization fails with the reserved-word invalid-identifier error, not
with the not-initialized error the claim promises for every operation. -/
theorem uninitialized_reserved_table_cex :
    insert "select" [("name", Value.str "x")] sNone =
      (.error (.invalidIdentifier IdentKind.table "select" true), sNone) ∧
    (insert "select" [("name", Value.str "x")] sNone).1 ≠
      Except.error DbError.notInitialized := by
  exact ⟨rfl, by decide⟩

/-- C10 (amended): `closeDatabase` with no open connection is an error-free
no-op; after any `closeDatabase` call the singleton handle is null, and
while it is null every operation invoked with identifiers that pass
validation fails with the not-initialized error, until `initDatabase`
re-creates the single open handle. -/
theorem close_resets_singleton
    (s s2 : ModuleState) (table : String)
    (htab : validateIdentifier table IdentKind.table = .ok ())
    (hnone : s2.dbInstance = none) :
    (s.dbInstance = none → closeDatabase s = (.ok (), s)) ∧
    ((closeDatabase s).1 = .ok () ∧ (closeDatabase s).2.dbInstance = none) ∧
    (insert table [] s2 = (.error .notInitialized, s2) ∧
     clearTable table s2 = (.error .notInitialized, s2) ∧
     tableExists table s2 = (.error .notInitialized, s2) ∧
     findAll table none none s2 = (.error .notInitialized, s2)) ∧
    ((initDatabase s2).1 = .ok s2.disk ∧
     (initDatabase s2).2.dbInstance = some s2.disk) := by
  refine ⟨fun h => by simp [closeDatabase, h], ?_, ?_, ?_⟩
  · cases hd : s.dbInstance <;> simp [closeDatabase, hd]
  · refine ⟨?_, ?_, ?_, ?_⟩ <;>
      simp [insert, clearTable, tableExists, findAll,
        run_bind, run_liftE, run_getDatabase, hnone, htab]
  · simp [initDatabase, hnone]

/-- Witness for C10 (amended): closing the never-opened state is a no-op
and a subsequent valid `insert` fails with the not-initialized error. -/
theorem close_resets_singleton_witness :
    closeDatabase sNone = (.ok (), sNone) ∧
    insert "users" [] sNone = (.error .notInitialized, sNone) :=
  (fun h => ⟨h.1 rfl, h.2.2.1.1⟩)
    (close_resets_singleton sNone sNone "users" (by decide) rfl)

/-- Counterexample for C10 as stated: after `closeDatabase`, `clearTable`
on the reserved word "drop" fails with the invalid-identifier error, not
with the not-initialized error the claim promises for every subsequent
operation. -/
theorem closed_reserved_table_cex :
    (closeDatabase sInit).2.dbInstance = none ∧
    clearTable "drop" (closeDatabase sInit).2 =
      (.error (.invalidIdentifier IdentKind.table "drop" true),
       (closeDatabase sInit).2) ∧
    (clearTable "drop" (closeDatabase sInit).2).1 ≠
      Except.error DbError.notInitialized := by
  exact ⟨rfl, rfl, by decide⟩

end SeniorConnect
